import Mathlib

set_option maxRecDepth 100000

/-!
Verification development for the wealth-tracker core:
the debt payoff simulator (src/lib/calc/payoff.ts), the cashflow helpers
(src/lib/calc/cashflow.ts) and the rules engine (src/lib/rules/index.ts).

Modelling conventions:
* JavaScript numbers are modelled as exact rationals (ℚ).  All the monetary
  arithmetic of the source (sums, differences, products, divisions, min/max)
  is translated literally on ℚ.
* JavaScript Math.round(x) rounds half-up towards positive infinity; it is
  modelled as jsRound (the floor of x + 1/2).  The source's
  Math.round(x * 100) / 100 pattern becomes round2, and the * 10 / 10
  pattern becomes round1.
* The JavaScript value Infinity (returned by calculateRunway and stored in
  runwayMonths) is modelled by the sentinel type NumInf, whose comparisons
  with finite rationals mirror IEEE comparisons with +Infinity.
* While loops are modelled by structural recursion on an explicit fuel
  argument; every loop of the source is guarded by a counter that stops it
  after at most 600 iterations, so fuel 600 makes the model exact.
* Display-only strings (Alert.title, Alert.message, Alert.action — built
  with toFixed/toLocaleString number formatting) are not modelled; an Alert
  keeps exactly the fields the engine branches on: id and severity.
-/

/-- JS Math.round: round half away from zero upwards (towards +∞). -/
def jsRound (q : ℚ) : ℤ := ⌊q + 1 / 2⌋

/-- The source's Math.round(x * 100) / 100 (two-decimal rounding). -/
def round2 (q : ℚ) : ℚ := (jsRound (q * 100) : ℚ) / 100

/-- The source's Math.round(x * 10) / 10 (one-decimal rounding). -/
def round1 (q : ℚ) : ℚ := (jsRound (q * 10) : ℚ) / 10

/-- A JS number that is either finite or the +Infinity sentinel. -/
inductive NumInf where
  | fin (q : ℚ)
  | inf
deriving DecidableEq

/-- Comparison x < r of a possibly-infinite number with a finite one. -/
def NumInf.ltQ : NumInf → ℚ → Bool
  | .fin q, r => decide (q < r)
  | .inf, _ => false

/-- Comparison x ≥ r of a possibly-infinite number with a finite one. -/
def NumInf.geQ : NumInf → ℚ → Bool
  | .fin q, r => decide (r ≤ q)
  | .inf, _ => true

/-- cashflow.ts calculateSavingsRate: (freeCashflow / totalIncome) * 100,
rounded to 1 decimal, with the zero-income guard returning 0. -/
def calculateSavingsRate (freeCashflow totalIncome : ℚ) : ℚ :=
  if totalIncome = 0 then 0
  else round1 (freeCashflow / totalIncome * 100)

/-- cashflow.ts calculateRunway: liquidAssets / (expenses + emi), rounded to
1 decimal, with the zero-burn guard returning the Infinity sentinel. -/
def calculateRunway (liquidAssets monthlyExpenses monthlyEmi : ℚ) : NumInf :=
  let monthlyBurn := monthlyExpenses + monthlyEmi
  if monthlyBurn = 0 then .inf
  else .fin (round1 (liquidAssets / monthlyBurn))

/-- payoff.ts DebtForPayoff. -/
structure DebtForPayoff where
  id : String
  name : String
  balance : ℚ
  apr : ℚ
  minPayment : ℚ
deriving DecidableEq

/-- payoff.ts calculateMonthlyInterest: balance * (apr / 12). -/
def calculateMonthlyInterest (balance apr : ℚ) : ℚ :=
  let monthlyRate := apr / 12
  balance * monthlyRate

/-- The strategy tag "avalanche" | "snowball". -/
inductive Strategy where
  | avalanche
  | snowball
deriving DecidableEq

/-- payoff.ts sortForAvalanche: [...debts].sort((a, b) => b.apr - a.apr).
JS Array.prototype.sort is a stable sort and the numeric comparator orders
by apr descending, so it is modelled by the stable mergeSort with the
comparator b.apr ≤ a.apr. -/
def sortForAvalanche (debts : List DebtForPayoff) : List DebtForPayoff :=
  debts.mergeSort (fun a b => decide (b.apr ≤ a.apr))

/-- payoff.ts sortForSnowball: [...debts].sort((a, b) => a.balance - b.balance),
a stable sort by balance ascending. -/
def sortForSnowball (debts : List DebtForPayoff) : List DebtForPayoff :=
  debts.mergeSort (fun a b => decide (a.balance ≤ b.balance))

/-- payoff.ts PayoffMonth (one row of a monthly breakdown table). -/
structure PayoffMonth where
  month : Nat
  balance : ℚ
  principal : ℚ
  interest : ℚ
  payment : ℚ
deriving DecidableEq

/-- payoff.ts PayoffDebtResult. -/
structure PayoffDebtResult where
  debtId : String
  debtName : String
  payoffMonth : Nat
  totalPaid : ℚ
  totalInterest : ℚ
  monthlyBreakdown : List PayoffMonth
deriving DecidableEq

/-- Running state of the simulateDebtPayoff while loop. -/
structure SimDebtState where
  balance : ℚ
  totalPaid : ℚ
  totalInterest : ℚ
  month : Nat
  monthlyBreakdown : List PayoffMonth
deriving DecidableEq

/-- One month's balance update of the simulateDebtPayoff loop body:
interest accrues, the payment is capped at balance + interest, and the
balance is reduced by the principal (never below 0). -/
def simDebtStep (d : DebtForPayoff) (monthlyPayment b : ℚ) : ℚ :=
  let interest := calculateMonthlyInterest b d.apr
  let payment := min monthlyPayment (b + interest)
  let principal := payment - interest
  max 0 (b - principal)

/-- The simulateDebtPayoff while loop
(while balance > 0.01 and month - startMonth < 600), fuel-indexed.
The loop guard stops after 600 iterations, so fuel 600 makes this exact. -/
def simDebtLoop (d : DebtForPayoff) (monthlyPayment : ℚ) (startMonth : Nat) :
    Nat → SimDebtState → SimDebtState
  | 0, s => s
  | fuel + 1, s =>
    if decide (1 / 100 < s.balance) && decide (s.month - startMonth < 600) then
      let interest := calculateMonthlyInterest s.balance d.apr
      let payment := min monthlyPayment (s.balance + interest)
      let principal := payment - interest
      let balance := max 0 (s.balance - principal)
      simDebtLoop d monthlyPayment startMonth fuel
        { balance := balance
          totalPaid := s.totalPaid + payment
          totalInterest := s.totalInterest + interest
          month := s.month + 1
          monthlyBreakdown := s.monthlyBreakdown ++
            [{ month := s.month
               balance := round2 balance
               principal := round2 principal
               interest := round2 interest
               payment := round2 payment }] }
    else s

/-- payoff.ts simulateDebtPayoff: simulate a single debt in isolation with a
fixed monthly payment, starting at startMonth (the source's default 1). -/
def simulateDebtPayoff (d : DebtForPayoff) (monthlyPayment : ℚ)
    (startMonth : Nat) : PayoffDebtResult :=
  let s := simDebtLoop d monthlyPayment startMonth 600
    { balance := d.balance
      totalPaid := 0
      totalInterest := 0
      month := startMonth
      monthlyBreakdown := [] }
  { debtId := d.id
    debtName := d.name
    payoffMonth := s.month - 1
    totalPaid := round2 s.totalPaid
    totalInterest := round2 s.totalInterest
    monthlyBreakdown := s.monthlyBreakdown }

/-- One tracked debt of the cascading loop: the source spreads the input
debt and adds a running currentBalance and a paid flag. -/
structure SimDebt where
  id : String
  name : String
  balance : ℚ
  apr : ℚ
  minPayment : ℚ
  currentBalance : ℚ
  paid : Bool
deriving DecidableEq

/-- The source's remainingDebts initialisation:
{ ...d, currentBalance: d.balance, paid: false }. -/
def toSimDebt (d : DebtForPayoff) : SimDebt :=
  { id := d.id
    name := d.name
    balance := d.balance
    apr := d.apr
    minPayment := d.minPayment
    currentBalance := d.balance
    paid := false }

/-- The continue-guard of the per-debt pass:
debt.paid || debt.currentBalance <= 0.01. -/
def skipDebt (d : SimDebt) : Bool :=
  d.paid || decide (d.currentBalance ≤ 1 / 100)

/-- The predicate of the priority-debt lookup and of the outer while guard:
!d.paid && d.currentBalance > 0.01. -/
def unpaidPred (d : SimDebt) : Bool :=
  !d.paid && decide (1 / 100 < d.currentBalance)

/-- remainingDebts.find((d) => !d.paid && d.currentBalance > 0.01). -/
def firstUnpaid (l : List SimDebt) : Option SimDebt :=
  l.find? unpaidPred

/-- debt.id === priorityDebt?.id (false when the find returns nothing). -/
def isPriority (l : List SimDebt) (d : SimDebt) : Bool :=
  match firstUnpaid l with
  | some p => p.id == d.id
  | none => false

/-- The payment application of the cascading loop body for one debt, given
the amount ex added on top of its minimum payment (ex is totalExtra for the
priority debt and 0 otherwise): the payment min(minPayment + ex,
currentBalance + interest) is applied and the debt is marked paid when the
new balance falls to ≤ 0.01 (which also zeroes the balance). -/
def payDebt (ex : ℚ) (d : SimDebt) : SimDebt :=
  let interest := calculateMonthlyInterest d.currentBalance d.apr
  let payment := min (d.minPayment + ex) (d.currentBalance + interest)
  let principal := payment - interest
  let nb := max 0 (d.currentBalance - principal)
  if nb ≤ 1 / 100 then { d with currentBalance := 0, paid := true }
  else { d with currentBalance := nb }

/-- The source's for (const debt of remainingDebts) pass of one simulated
month.  The source mutates the array in place while Array.prototype.find
re-reads it, so the model threads the already-processed prefix acc (in its
post-payment state) in front of the unprocessed rest; the priority lookup
runs over acc ++ rest exactly as find does over the whole array.  Returns
the processed list and the interest accrued by the pass. -/
def monthPassGo (totalExtra : ℚ) (acc : List SimDebt) :
    List SimDebt → List SimDebt × ℚ
  | [] => (acc, 0)
  | d :: rest =>
    if skipDebt d then monthPassGo totalExtra (acc ++ [d]) rest
    else
      let interest := calculateMonthlyInterest d.currentBalance d.apr
      let ex := if isPriority (acc ++ d :: rest) d then totalExtra else 0
      let d' := payDebt ex d
      let out := monthPassGo totalExtra (acc ++ [d']) rest
      (out.1, interest + out.2)

/-- One simulated month of the cascading loop: every debt is processed in
order by monthPassGo with this month's totalExtra. -/
def monthPass (totalExtra : ℚ) (l : List SimDebt) : List SimDebt × ℚ :=
  monthPassGo totalExtra [] l

/-- Freed payments: sum of the minimum payments of already-paid debts. -/
def freedPayments (l : List SimDebt) : ℚ :=
  ((l.filter (fun d => d.paid)).map (fun d => d.minPayment)).sum

/-- remainingDebts.some((d) => !d.paid && d.currentBalance > 0.01). -/
def anyUnpaid (l : List SimDebt) : Bool :=
  l.any unpaidPred

/-- The month-by-month cascading while loop of simulatePayoff
(while some debt is unpaid and currentMonth < 600), fuel-indexed; the
guard currentMonth < 600 stops it after at most 599 iterations, so fuel 600
makes the model exact.  State: current month, debt states, accumulated
totalInterestPaid.  availableExtra is the never-reassigned
extraMonthlyPayment. -/
def cascadeLoop (availableExtra : ℚ) :
    Nat → Nat → List SimDebt → ℚ → Nat × List SimDebt × ℚ
  | 0, month, l, ti => (month, l, ti)
  | fuel + 1, month, l, ti =>
    if anyUnpaid l && decide (month < 600) then
      let freed := freedPayments l
      let totalExtra := availableExtra + freed
      let out := monthPass totalExtra l
      cascadeLoop availableExtra fuel (month + 1) out.1 (ti + out.2)
    else (month, l, ti)

/-- Result record of simulatePayoffBaseline. -/
structure BaselineResult where
  totalMonths : Nat
  totalInterestPaid : ℚ
deriving DecidableEq

/-- The per-debt while loop of simulatePayoffBaseline
(while balance > 0.01 and months < 600), fuel-indexed; fuel 600 is exact.
Returns the accrued interest and the month counter. -/
def baselineLoop (d : DebtForPayoff) : Nat → ℚ → ℚ → Nat → ℚ × Nat
  | 0, _, ti, months => (ti, months)
  | fuel + 1, b, ti, months =>
    if decide (1 / 100 < b) && decide (months < 600) then
      let interest := calculateMonthlyInterest b d.apr
      let payment := min d.minPayment (b + interest)
      let principal := payment - interest
      baselineLoop d fuel (max 0 (b - principal)) (ti + interest) (months + 1)
    else (ti, months)

/-- payoff.ts simulatePayoffBaseline: each debt independently on its own
minimum payment; interest is summed across debts and totalMonths is the
maximum per-debt month count. -/
def simulatePayoffBaseline (debts : List DebtForPayoff) : BaselineResult :=
  let acc := debts.foldl
    (fun (acc : ℚ × Nat) d =>
      let out := baselineLoop d 600 d.balance 0 0
      (acc.1 + out.1, max acc.2 out.2))
    (0, 0)
  { totalMonths := acc.2, totalInterestPaid := round2 acc.1 }

/-- payoff.ts PayoffSimulation.  monthsSaved is
Math.max(0, baseline.totalMonths - totalMonths), an integer. -/
structure PayoffSimulation where
  strategy : Strategy
  extraPayment : ℚ
  debts : List PayoffDebtResult
  totalMonths : Nat
  totalInterestPaid : ℚ
  monthsSaved : ℤ
  interestSaved : ℚ
deriving DecidableEq

/-- Math.max(...results.map((r) => r.payoffMonth)) over a non-empty results
list (the only way the source calls it). -/
def maxPayoffMonth (results : List PayoffDebtResult) : Nat :=
  (results.map (fun r => r.payoffMonth)).foldl max 0

/-- payoff.ts simulatePayoff: the empty-input early return, the strategy
sort, the cascading month loop (contributing totalInterestPaid), the
isolated per-debt replays (contributing the per-debt results and
totalMonths), and the baseline comparison (contributing monthsSaved and
interestSaved). -/
def simulatePayoff (debts : List DebtForPayoff) (strategy : Strategy)
    (extraMonthlyPayment : ℚ) : PayoffSimulation :=
  if debts.length = 0 then
    { strategy := strategy
      extraPayment := extraMonthlyPayment
      debts := []
      totalMonths := 0
      totalInterestPaid := 0
      monthsSaved := 0
      interestSaved := 0 }
  else
    let sortedDebts := match strategy with
      | .avalanche => sortForAvalanche debts
      | .snowball => sortForSnowball debts
    let remainingDebts := sortedDebts.map toSimDebt
    let cascade := cascadeLoop extraMonthlyPayment 600 1 remainingDebts 0
    let totalInterestPaid := cascade.2.2
    let results := sortedDebts.map (fun d =>
      simulateDebtPayoff d
        (d.minPayment +
          if (sortedDebts.head?.map (fun h => h.id)) = some d.id
          then extraMonthlyPayment else 0)
        1)
    let baselineSimulation := simulatePayoffBaseline debts
    let lastPayoffMonth := maxPayoffMonth results
    let totalMonths := lastPayoffMonth
    { strategy := strategy
      extraPayment := extraMonthlyPayment
      debts := results
      totalMonths := totalMonths
      totalInterestPaid := round2 totalInterestPaid
      monthsSaved := max 0 ((baselineSimulation.totalMonths : ℤ) - (totalMonths : ℤ))
      interestSaved := max 0 (round2 (baselineSimulation.totalInterestPaid - totalInterestPaid)) }

/-- Result record of compareStrategies. -/
structure CompareResult where
  avalanche : PayoffSimulation
  snowball : PayoffSimulation
  recommendation : Strategy
  interestDifference : ℚ
deriving DecidableEq

/-- payoff.ts compareStrategies: run both strategies with the same extra
payment; recommend avalanche exactly when the (unrounded) interest
difference exceeds 1000; report the difference rounded to 2 decimals. -/
def compareStrategies (debts : List DebtForPayoff)
    (extraMonthlyPayment : ℚ) : CompareResult :=
  let avalanche := simulatePayoff debts .avalanche extraMonthlyPayment
  let snowball := simulatePayoff debts .snowball extraMonthlyPayment
  let interestDifference := snowball.totalInterestPaid - avalanche.totalInterestPaid
  let recommendation : Strategy :=
    if 1000 < interestDifference then .avalanche else .snowball
  { avalanche := avalanche
    snowball := snowball
    recommendation := recommendation
    interestDifference := round2 interestDifference }

/-- Alert severity "high" | "medium" | "low". -/
inductive Severity where
  | high
  | medium
  | low
deriving DecidableEq

/-- The severityOrder table of evaluateRules: high 0, medium 1, low 2. -/
def severityOrder : Severity → Nat
  | .high => 0
  | .medium => 1
  | .low => 2

/-- rules/index.ts Alert, restricted to the fields the engine branches on
(id and severity); title, message and action are display-only strings. -/
structure Alert where
  id : String
  severity : Severity
deriving DecidableEq

/-- types.ts AllocationTargets: fixed keys in declaration order. -/
structure AllocationTargets where
  equity : ℚ
  mf : ℚ
  crypto : ℚ
  gold : ℚ
  realestate : ℚ
  other : ℚ
deriving DecidableEq

/-- Object.entries of an AllocationTargets value, in key declaration
order. -/
def allocationEntries (t : AllocationTargets) : List (String × ℚ) :=
  [("equity", t.equity), ("mf", t.mf), ("crypto", t.crypto),
   ("gold", t.gold), ("realestate", t.realestate), ("other", t.other)]

/-- The source's ctx.assetAllocation[type] || 0 lookup on the
Record<string, number> of allocation percentages. -/
def lookupAlloc (alloc : List (String × ℚ)) (ty : String) : ℚ :=
  match alloc.lookup ty with
  | some v => v
  | none => 0

/-- rules/index.ts RulesContext.  runwayMonths may be Infinity (NumInf);
assetAllocation is the percentage record. -/
structure RulesContext where
  totalMonthlyIncome : ℚ
  totalMonthlyExpenses : ℚ
  totalMonthlyEmi : ℚ
  freeCashflow : ℚ
  savingsRate : ℚ
  liquidAssets : ℚ
  totalAssets : ℚ
  assetAllocation : List (String × ℚ)
  totalLiabilities : ℚ
  highestDebtApr : ℚ
  ccBalance : ℚ
  hasHighAprDebt : Bool
  emergencyFundMonthsTarget : ℚ
  emiToIncomeMaxPercent : ℚ
  ccUtilizationMaxPercent : ℚ
  allocationTargets : AllocationTargets
  runwayMonths : NumInf
  debtToIncomeRatio : ℚ
deriving DecidableEq

/-- Rule: emergency fund — alert when runwayMonths is below the target;
severity high below 3 months, medium below 5, low otherwise. -/
def checkEmergencyFund (ctx : RulesContext) : Option Alert :=
  if ctx.runwayMonths.geQ ctx.emergencyFundMonthsTarget then none
  else
    let severity : Severity :=
      if ctx.runwayMonths.ltQ 3 then .high
      else if ctx.runwayMonths.ltQ 5 then .medium
      else .low
    some { id := "emergency-fund", severity := severity }

/-- Rule: credit-card utilization — ccBalance relative to monthly income;
silent when either is zero or utilization is within the threshold. -/
def checkCreditCardUtilization (ctx : RulesContext) : Option Alert :=
  if ctx.ccBalance = 0 ∨ ctx.totalMonthlyIncome = 0 then none
  else
    let utilizationPercent := ctx.ccBalance / ctx.totalMonthlyIncome * 100
    if utilizationPercent ≤ ctx.ccUtilizationMaxPercent then none
    else
      let severity : Severity :=
        if 100 < utilizationPercent then .high
        else if 50 < utilizationPercent then .medium
        else .low
      some { id := "cc-utilization", severity := severity }

/-- Rule: EMI-to-income ratio — silent when income is zero or the ratio is
within the threshold; high above 50%, medium above 40%, low otherwise. -/
def checkEmiToIncome (ctx : RulesContext) : Option Alert :=
  if ctx.totalMonthlyIncome = 0 then none
  else
    let emiPercent := ctx.totalMonthlyEmi / ctx.totalMonthlyIncome * 100
    if emiPercent ≤ ctx.emiToIncomeMaxPercent then none
    else
      let severity : Severity :=
        if 50 < emiPercent then .high
        else if 40 < emiPercent then .medium
        else .low
      some { id := "emi-income-ratio", severity := severity }

/-- Rule: high-APR debt while holding liquid investments beyond the
emergency-fund reserve. -/
def checkHighAprDebtWithInvestments (ctx : RulesContext) : Option Alert :=
  if ctx.hasHighAprDebt then
    let investmentValue := ctx.liquidAssets -
      ctx.emergencyFundMonthsTarget * (ctx.totalMonthlyExpenses + ctx.totalMonthlyEmi)
    if investmentValue ≤ 0 then none
    else some { id := "high-apr-with-investments", severity := .medium }
  else none

/-- Rule: negative monthly cashflow (always high severity). -/
def checkNegativeCashflow (ctx : RulesContext) : Option Alert :=
  if 0 ≤ ctx.freeCashflow then none
  else some { id := "negative-cashflow", severity := .high }

/-- Rule: low savings rate — silent at ≥ 20% and also for negative rates
(ceded to the negative-cashflow rule); medium below 5%, low otherwise. -/
def checkSavingsRate (ctx : RulesContext) : Option Alert :=
  if 20 ≤ ctx.savingsRate then none
  else if ctx.savingsRate < 0 then none
  else
    let severity : Severity :=
      if ctx.savingsRate < 5 then .medium
      else if ctx.savingsRate < 10 then .low
      else .low
    some { id := "low-savings-rate", severity := severity }

/-- Rule: allocation drift — some target key drifts more than 10 points
from its actual allocation.  The source then stable-sorts the drifted keys
by magnitude to pick the largest for the message text; that choice only
affects the unmodelled display strings, so the model keeps the emptiness
test only. -/
def checkAllocationDrift (ctx : RulesContext) : Option Alert :=
  let drifts := (allocationEntries ctx.allocationTargets).filter
    (fun e => decide (10 < |lookupAlloc ctx.assetAllocation e.1 - e.2|))
  if drifts = [] then none
  else some { id := "allocation-drift", severity := .low }

/-- Rule: no income streams tracked. -/
def checkNoIncome (ctx : RulesContext) : Option Alert :=
  if 0 < ctx.totalMonthlyIncome then none
  else some { id := "no-income", severity := .medium }

/-- The fixed, ordered rule catalogue RULES. -/
def RULES : List (RulesContext → Option Alert) :=
  [checkEmergencyFund,
   checkCreditCardUtilization,
   checkEmiToIncome,
   checkHighAprDebtWithInvestments,
   checkNegativeCashflow,
   checkSavingsRate,
   checkAllocationDrift,
   checkNoIncome]

/-- The alert list accumulated in catalogue order before sorting.  The
source's per-rule try/catch is dead in the model: every modelled rule is a
total function, so no contribution is ever dropped. -/
def rawAlerts (ctx : RulesContext) : List Alert :=
  RULES.filterMap (fun rule => rule ctx)

/-- rules/index.ts evaluateRules: run the catalogue, then stable-sort by
severity (high first).  JS Array.prototype.sort with the consistent
comparator severityOrder[a] - severityOrder[b] is a stable sort, modelled
by mergeSort on severityOrder a.severity ≤ severityOrder b.severity. -/
def evaluateRules (ctx : RulesContext) : List Alert :=
  (rawAlerts ctx).mergeSort
    (fun a b => decide (severityOrder a.severity ≤ severityOrder b.severity))

/-- The settings sub-record consumed by buildRulesContext. -/
structure RuleSettings where
  emergencyFundMonthsTarget : ℚ
  emiToIncomeMaxPercent : ℚ
  ccUtilizationMaxPercent : ℚ
  allocationTargets : AllocationTargets
deriving DecidableEq

/-- The data record consumed by buildRulesContext. -/
structure RulesData where
  income : ℚ
  expenses : ℚ
  emi : ℚ
  liquidAssets : ℚ
  totalAssets : ℚ
  totalLiabilities : ℚ
  ccBalance : ℚ
  highestApr : ℚ
  assetAllocation : List (String × ℚ)
  settings : RuleSettings
deriving DecidableEq

/-- rules/index.ts buildRulesContext: derives runway (Infinity when the
burn is not positive), free cashflow, savings rate and debt-to-income
ratio (0 at zero income), and the hasHighAprDebt flag (APR > 15%). -/
def buildRulesContext (data : RulesData) : RulesContext :=
  let monthlyBurn := data.expenses + data.emi
  let runwayMonths : NumInf :=
    if 0 < monthlyBurn then .fin (data.liquidAssets / monthlyBurn) else .inf
  let freeCashflow := data.income - data.expenses - data.emi
  let savingsRate := if 0 < data.income then freeCashflow / data.income * 100 else 0
  let debtToIncomeRatio :=
    if 0 < data.income then data.emi / data.income * 100 else 0
  { totalMonthlyIncome := data.income
    totalMonthlyExpenses := data.expenses
    totalMonthlyEmi := data.emi
    freeCashflow := freeCashflow
    savingsRate := savingsRate
    liquidAssets := data.liquidAssets
    totalAssets := data.totalAssets
    assetAllocation := data.assetAllocation
    totalLiabilities := data.totalLiabilities
    highestDebtApr := data.highestApr
    ccBalance := data.ccBalance
    hasHighAprDebt := decide ((15 : ℚ) / 100 < data.highestApr)
    emergencyFundMonthsTarget := data.settings.emergencyFundMonthsTarget
    emiToIncomeMaxPercent := data.settings.emiToIncomeMaxPercent
    ccUtilizationMaxPercent := data.settings.ccUtilizationMaxPercent
    allocationTargets := data.settings.allocationTargets
    runwayMonths := runwayMonths
    debtToIncomeRatio := debtToIncomeRatio }

/-- The fixed id each rule can emit, in catalogue order. -/
def ruleIds : List String :=
  ["emergency-fund", "cc-utilization", "emi-income-ratio",
   "high-apr-with-investments", "negative-cashflow", "low-savings-rate",
   "allocation-drift", "no-income"]

/-- Zeroed allocation targets for the concrete rule contexts below. -/
def zeroTargets : AllocationTargets :=
  { equity := 0, mf := 0, crypto := 0, gold := 0, realestate := 0, other := 0 }

/-- Concrete settings for the concrete rule contexts below. -/
def plainSettings : RuleSettings :=
  { emergencyFundMonthsTarget := 6
    emiToIncomeMaxPercent := 40
    ccUtilizationMaxPercent := 30
    allocationTargets := zeroTargets }

/-- Concrete buildRulesContext input with zero income and one unit of
monthly expenses: free cashflow is −1 but the derived savings rate is 0,
not negative. -/
def zeroIncomeData : RulesData :=
  { income := 0
    expenses := 1
    emi := 0
    liquidAssets := 0
    totalAssets := 0
    totalLiabilities := 0
    ccBalance := 0
    highestApr := 0
    assetAllocation := []
    settings := plainSettings }

/-- Concrete RulesContext with both free cashflow and savings rate
negative. -/
def negativeCtx : RulesContext :=
  { totalMonthlyIncome := 1
    totalMonthlyExpenses := 2
    totalMonthlyEmi := 0
    freeCashflow := -1
    savingsRate := -100
    liquidAssets := 0
    totalAssets := 0
    assetAllocation := []
    totalLiabilities := 0
    highestDebtApr := 0
    ccBalance := 0
    hasHighAprDebt := false
    emergencyFundMonthsTarget := 6
    emiToIncomeMaxPercent := 40
    ccUtilizationMaxPercent := 30
    allocationTargets := zeroTargets
    runwayMonths := .fin 0
    debtToIncomeRatio := 0 }

/-- Concrete pair of debts for the cascading counterexample: the first is
paid off by the extra in the same month, and the re-evaluated priority
lookup then hands the full extra to the second debt too. -/
def cexDebtA : SimDebt :=
  { id := "a", name := "A", balance := 10, apr := 0, minPayment := 5,
    currentBalance := 10, paid := false }

/-- Second debt of the cascading counterexample. -/
def cexDebtB : SimDebt :=
  { id := "b", name := "B", balance := 1000, apr := 0, minPayment := 5,
    currentBalance := 1000, paid := false }

/-- Priority debt of the single-recipient witness: survives its payment. -/
def wDebtA : SimDebt :=
  { id := "a", name := "A", balance := 100, apr := 0, minPayment := 5,
    currentBalance := 100, paid := false }

/-- Trailing debt of the single-recipient witness. -/
def wDebtB : SimDebt :=
  { id := "b", name := "B", balance := 50, apr := 0, minPayment := 3,
    currentBalance := 50, paid := false }

/-- The internal balance trace of the isolated minimum-payment
simulation: k applications of the simulateDebtPayoff loop-body balance
update (simDebtStep) at the debt's own minimum payment. -/
def isolatedBalance (d : DebtForPayoff) (k : Nat) : ℚ :=
  (simDebtStep d d.minPayment)^[k] d.balance

/-- A zero-APR debt whose minimum payment is a thousandth of its balance:
it satisfies the claim's amortization hypothesis, yet cannot pay off
within the cap. -/
def slowDebt : DebtForPayoff :=
  { id := "d1", name := "D1", balance := 1000, apr := 0, minPayment := 1 }

/-- Concrete fast-amortizing debt for the C3 witness. -/
def quickDebt : DebtForPayoff :=
  { id := "q", name := "Q", balance := 10, apr := 0, minPayment := 5 }

/-! ### General helper lemmas -/

/-- jsRound is the identity on integers. -/
lemma jsRound_intCast (n : ℤ) : jsRound (n : ℚ) = n := by
  unfold jsRound
  rw [add_comm, Int.floor_add_int]
  norm_num

/-- round2 fixes every integer multiple of 1/100. -/
lemma round2_intCast_div (n : ℤ) : round2 ((n : ℚ) / 100) = (n : ℚ) / 100 := by
  unfold round2
  have h : (n : ℚ) / 100 * 100 = (n : ℚ) := by field_simp
  rw [h, jsRound_intCast]

/-- Every round2 value is an integer multiple of 1/100. -/
lemma round2_centi (q : ℚ) : ∃ n : ℤ, round2 q = (n : ℚ) / 100 :=
  ⟨jsRound (q * 100), rfl⟩

/-- A simulation's totalInterestPaid is always an integer multiple of
1/100 (it is 0 for the empty input and a round2 value otherwise). -/
lemma simulatePayoff_totalInterestPaid_centi (debts : List DebtForPayoff)
    (strat : Strategy) (extra : ℚ) :
    ∃ n : ℤ, (simulatePayoff debts strat extra).totalInterestPaid = (n : ℚ) / 100 := by
  unfold simulatePayoff
  split
  · exact ⟨0, by norm_num⟩
  · exact round2_centi _

/-- C4: compareStrategies reports interestDifference exactly equal to
snowball.totalInterestPaid − avalanche.totalInterestPaid (the rounding to
2 decimals is the identity here because both totals are already
2-decimal values), and recommends avalanche exactly when that difference
exceeds 1000. -/
theorem compareStrategies_difference_and_recommendation
    (debts : List DebtForPayoff) (extra : ℚ) :
    (compareStrategies debts extra).interestDifference =
      (simulatePayoff debts .snowball extra).totalInterestPaid -
        (simulatePayoff debts .avalanche extra).totalInterestPaid ∧
    ((compareStrategies debts extra).recommendation = .avalanche ↔
      1000 < (simulatePayoff debts .snowball extra).totalInterestPaid -
        (simulatePayoff debts .avalanche extra).totalInterestPaid) := by
  obtain ⟨n, hn⟩ := simulatePayoff_totalInterestPaid_centi debts .snowball extra
  obtain ⟨m, hm⟩ := simulatePayoff_totalInterestPaid_centi debts .avalanche extra
  constructor
  · show round2 _ = _
    rw [hn, hm]
    have h : (n : ℚ) / 100 - (m : ℚ) / 100 = ((n - m : ℤ) : ℚ) / 100 := by
      push_cast
      ring
    rw [h, round2_intCast_div]
  · show (if 1000 < _ then Strategy.avalanche else Strategy.snowball) = _ ↔ _
    split
    · simp_all
    · simp_all

/-- C8: with zero burn, calculateRunway returns the Infinity sentinel for
every liquidAssets value, and with zero income calculateSavingsRate
returns 0 for every freeCashflow value; both are total functions of exact
rationals, so no NaN and no exception can arise. -/
theorem calculateRunway_zero_burn_and_savingsRate_zero_income
    (liquidAssets freeCashflow : ℚ) :
    calculateRunway liquidAssets 0 0 = NumInf.inf ∧
    calculateSavingsRate freeCashflow 0 = 0 := by
  constructor
  · simp [calculateRunway]
  · simp [calculateSavingsRate]

/-- C9: the empty debt list short-circuits simulatePayoff to a zero-valued
PayoffSimulation (no simulated month, no interest) for every strategy and
every extra payment. -/
theorem simulatePayoff_empty (strategy : Strategy) (x : ℚ) :
    (simulatePayoff [] strategy x).debts = [] ∧
    (simulatePayoff [] strategy x).totalMonths = 0 ∧
    (simulatePayoff [] strategy x).totalInterestPaid = 0 := by
  refine ⟨rfl, rfl, rfl⟩

/-! ### Loop iteration bounds (C7, and the totalMonths cap) -/

/-- The isolated-debt loop advances its month counter by at most its
fuel. -/
lemma simDebtLoop_month_le (d : DebtForPayoff) (mp : ℚ) (st : Nat) :
    ∀ (fuel : Nat) (s : SimDebtState),
      (simDebtLoop d mp st fuel s).month ≤ s.month + fuel := by
  intro fuel
  induction fuel with
  | zero => intro s; simp [simDebtLoop]
  | succ n ih =>
    intro s
    rw [simDebtLoop]
    split
    · exact le_trans (ih _) (by simp; omega)
    · omega

/-- The isolated-debt loop appends at most fuel breakdown rows. -/
lemma simDebtLoop_breakdown_le (d : DebtForPayoff) (mp : ℚ) (st : Nat) :
    ∀ (fuel : Nat) (s : SimDebtState),
      (simDebtLoop d mp st fuel s).monthlyBreakdown.length ≤
        s.monthlyBreakdown.length + fuel := by
  intro fuel
  induction fuel with
  | zero => intro s; simp [simDebtLoop]
  | succ n ih =>
    intro s
    rw [simDebtLoop]
    split
    · exact le_trans (ih _) (by simp; omega)
    · omega

/-- Each isolated replay reports a payoff month of at most 600 when
started at month 1 (the only way the source starts it). -/
lemma simulateDebtPayoff_payoffMonth_le (d : DebtForPayoff) (mp : ℚ) :
    (simulateDebtPayoff d mp 1).payoffMonth ≤ 600 := by
  simp only [simulateDebtPayoff]
  have h := simDebtLoop_month_le d mp 1 600
    { balance := d.balance
      totalPaid := 0
      totalInterest := 0
      month := 1
      monthlyBreakdown := [] }
  simp only at h
  omega

/-- foldl max stays below any bound dominating the seed and the
elements. -/
lemma foldl_max_le_of_forall (n : Nat) :
    ∀ (l : List Nat) (acc : Nat), acc ≤ n → (∀ x ∈ l, x ≤ n) →
      l.foldl max acc ≤ n := by
  intro l
  induction l with
  | nil => intro acc h _; simpa using h
  | cons x xs ih =>
    intro acc h1 h2
    rw [List.foldl_cons]
    exact ih _ (max_le h1 (h2 x (by simp))) (fun y hy => h2 y (by simp [hy]))

/-- The overall totalMonths of a simulation never exceeds the 600-month
cap. -/
lemma simulatePayoff_totalMonths_le (debts : List DebtForPayoff)
    (strat : Strategy) (extra : ℚ) :
    (simulatePayoff debts strat extra).totalMonths ≤ 600 := by
  simp only [simulatePayoff]
  split
  · simp
  · refine foldl_max_le_of_forall 600 _ 0 (by omega) ?_
    intro x hx
    rw [List.mem_map] at hx
    obtain ⟨r, hr, hrx⟩ := hx
    rw [List.mem_map] at hr
    obtain ⟨dd, _, hdd⟩ := hr
    subst hdd hrx
    exact simulateDebtPayoff_payoffMonth_le _ _

/-- The cascading loop's month counter never passes 600: the guard
requires month < 600 before each iteration. -/
lemma cascadeLoop_month_le (extra : ℚ) :
    ∀ (fuel month : Nat) (l : List SimDebt) (ti : ℚ), month ≤ 600 →
      (cascadeLoop extra fuel month l ti).1 ≤ 600 := by
  intro fuel
  induction fuel with
  | zero => intro month l ti h; simpa [cascadeLoop] using h
  | succ n ih =>
    intro month l ti h
    rw [cascadeLoop]
    split
    · rename_i hguard
      rw [Bool.and_eq_true, decide_eq_true_iff] at hguard
      exact ih _ _ _ (by omega)
    · simpa using h

/-- The baseline per-debt loop's month counter never passes 600. -/
lemma baselineLoop_months_le (d : DebtForPayoff) :
    ∀ (fuel : Nat) (b ti : ℚ) (months : Nat), months ≤ 600 →
      (baselineLoop d fuel b ti months).2 ≤ 600 := by
  intro fuel
  induction fuel with
  | zero => intro b ti months h; simpa [baselineLoop] using h
  | succ n ih =>
    intro b ti months h
    rw [baselineLoop]
    split
    · rename_i hguard
      rw [Bool.and_eq_true, decide_eq_true_iff, decide_eq_true_iff] at hguard
      exact ih _ _ _ (by omega)
    · simpa using h

/-- C7: the simulation terminates with every loop within the 600-month
cap — termination is by construction in this total model (each loop is
structural recursion on fuel 600), and the month counts confirm the cap:
the overall totalMonths is at most 600, each isolated replay (started at
month 1 as the source does) records at most 600 monthly rows, the
cascading loop's final month is at most 600 (it starts at month 1, so it
iterates at most 599 times), and each baseline per-debt loop counts at
most 600 months. -/
theorem simulation_loops_bounded (debts : List DebtForPayoff)
    (strat : Strategy) (extra : ℚ) (d : DebtForPayoff) (mp : ℚ)
    (l : List SimDebt) :
    (simulatePayoff debts strat extra).totalMonths ≤ 600 ∧
    (simulateDebtPayoff d mp 1).monthlyBreakdown.length ≤ 600 ∧
    (cascadeLoop extra 600 1 l 0).1 ≤ 600 ∧
    (baselineLoop d 600 d.balance 0 0).2 ≤ 600 := by
  refine ⟨simulatePayoff_totalMonths_le debts strat extra, ?_,
    cascadeLoop_month_le extra 600 1 l 0 (by omega),
    baselineLoop_months_le d 600 d.balance 0 0 (by omega)⟩
  simp only [simulateDebtPayoff]
  have h := simDebtLoop_breakdown_le d mp 1 600
    { balance := d.balance
      totalPaid := 0
      totalInterest := 0
      month := 1
      monthlyBreakdown := [] }
  simpa using h

/-! ### Stable sorting facts (C5, C6) -/

/-- A stable sort leaves each equal-key class untouched: filtering the
mergeSort output by any predicate on which the comparator is reflexive in
both directions gives exactly the filter of the input. -/
lemma mergeSort_filter_eq_of_key {α : Type} (le : α → α → Bool)
    (htrans : ∀ a b c, le a b = true → le b c = true → le a c = true)
    (htotal : ∀ a b, le a b || le b a)
    (p : α → Bool)
    (hp : ∀ a b, p a = true → p b = true → le a b = true)
    (l : List α) :
    (l.mergeSort le).filter p = l.filter p := by
  have hpair : (l.filter p).Pairwise (fun a b => le a b = true) :=
    List.pairwise_of_forall_mem_list (fun a ha b hb =>
      hp a b (List.of_mem_filter ha) (List.of_mem_filter hb))
  have h1 : List.Sublist (l.filter p) (l.mergeSort le) :=
    List.sublist_mergeSort htrans htotal hpair (List.filter_sublist l)
  have h2 : List.Sublist ((l.filter p).filter p) ((l.mergeSort le).filter p) :=
    h1.filter p
  rw [List.filter_filter] at h2
  simp only [Bool.and_self] at h2
  have h3 : ((l.mergeSort le).filter p).length = (l.filter p).length :=
    ((List.mergeSort_perm l le).filter p).length_eq
  exact (h2.eq_of_length h3.symm).symm

/-- The avalanche comparator (apr descending) is transitive. -/
lemma avalancheLE_trans : ∀ a b c : DebtForPayoff,
    decide (b.apr ≤ a.apr) = true → decide (c.apr ≤ b.apr) = true →
    decide (c.apr ≤ a.apr) = true := by
  intro a b c h1 h2
  rw [decide_eq_true_iff] at *
  exact le_trans h2 h1

/-- The avalanche comparator is total. -/
lemma avalancheLE_total : ∀ a b : DebtForPayoff,
    decide (b.apr ≤ a.apr) || decide (a.apr ≤ b.apr) := by
  intro a b
  rcases le_total b.apr a.apr with h | h <;> simp [h]

/-- The snowball comparator (balance ascending) is transitive. -/
lemma snowballLE_trans : ∀ a b c : DebtForPayoff,
    decide (a.balance ≤ b.balance) = true → decide (b.balance ≤ c.balance) = true →
    decide (a.balance ≤ c.balance) = true := by
  intro a b c h1 h2
  rw [decide_eq_true_iff] at *
  exact le_trans h1 h2

/-- The snowball comparator is total. -/
lemma snowballLE_total : ∀ a b : DebtForPayoff,
    decide (a.balance ≤ b.balance) || decide (b.balance ≤ a.balance) := by
  intro a b
  rcases le_total a.balance b.balance with h | h <;> simp [h]

/-- C6: sortForAvalanche permutes its input into non-increasing apr order
and sortForSnowball into non-decreasing balance order, and both are
stable — each equal-key class (debts sharing one apr value, resp. one
balance value) appears in its original relative order, stated as filter
preservation.  The functions are pure (the source copies the array before
sorting), so the input list itself is never changed. -/
theorem sort_strategies_correct (debts : List DebtForPayoff) :
    (sortForAvalanche debts).Perm debts ∧
    (sortForAvalanche debts).Pairwise (fun a b => b.apr ≤ a.apr) ∧
    (∀ k : ℚ, (sortForAvalanche debts).filter (fun d => decide (d.apr = k)) =
      debts.filter (fun d => decide (d.apr = k))) ∧
    (sortForSnowball debts).Perm debts ∧
    (sortForSnowball debts).Pairwise (fun a b => a.balance ≤ b.balance) ∧
    (∀ k : ℚ, (sortForSnowball debts).filter (fun d => decide (d.balance = k)) =
      debts.filter (fun d => decide (d.balance = k))) := by
  refine ⟨List.mergeSort_perm debts _, ?_, ?_, List.mergeSort_perm debts _, ?_, ?_⟩
  · exact (List.sorted_mergeSort avalancheLE_trans avalancheLE_total debts).imp
      (fun h => decide_eq_true_iff.mp h)
  · intro k
    refine mergeSort_filter_eq_of_key _ avalancheLE_trans avalancheLE_total _ ?_ debts
    intro a b ha hb
    rw [decide_eq_true_iff] at *
    rw [ha, hb]
  · exact (List.sorted_mergeSort snowballLE_trans snowballLE_total debts).imp
      (fun h => decide_eq_true_iff.mp h)
  · intro k
    refine mergeSort_filter_eq_of_key _ snowballLE_trans snowballLE_total _ ?_ debts
    intro a b ha hb
    rw [decide_eq_true_iff] at *
    rw [ha, hb]

/-- The severity comparator of evaluateRules is transitive. -/
lemma severityLE_trans : ∀ a b c : Alert,
    decide (severityOrder a.severity ≤ severityOrder b.severity) = true →
    decide (severityOrder b.severity ≤ severityOrder c.severity) = true →
    decide (severityOrder a.severity ≤ severityOrder c.severity) = true := by
  intro a b c h1 h2
  rw [decide_eq_true_iff] at *
  exact le_trans h1 h2

/-- The severity comparator of evaluateRules is total. -/
lemma severityLE_total : ∀ a b : Alert,
    decide (severityOrder a.severity ≤ severityOrder b.severity) ||
      decide (severityOrder b.severity ≤ severityOrder a.severity) := by
  intro a b
  rcases le_total (severityOrder a.severity) (severityOrder b.severity) with h | h <;> simp [h]

/-- C5: evaluateRules output is sorted by severity rank high → medium →
low (so no high-severity alert ever follows a medium- or low-severity
one), and the sort is stable: for each severity the alerts appear in
exactly the order their rules fired in the catalogue (rawAlerts). -/
theorem evaluateRules_sorted_and_stable (ctx : RulesContext) :
    (evaluateRules ctx).Pairwise
      (fun a b => severityOrder a.severity ≤ severityOrder b.severity) ∧
    ∀ s : Severity,
      (evaluateRules ctx).filter (fun a => decide (a.severity = s)) =
        (rawAlerts ctx).filter (fun a => decide (a.severity = s)) := by
  constructor
  · exact (List.sorted_mergeSort severityLE_trans severityLE_total
      (rawAlerts ctx)).imp (fun h => decide_eq_true_iff.mp h)
  · intro s
    refine mergeSort_filter_eq_of_key _ severityLE_trans severityLE_total _ ?_ _
    intro a b ha hb
    rw [decide_eq_true_iff] at *
    rw [ha, hb]

/-! ### Rule catalogue facts (C2, C10) -/

/-- checkEmergencyFund only ever emits the emergency-fund id. -/
lemma checkEmergencyFund_id (ctx : RulesContext) (a : Alert)
    (h : checkEmergencyFund ctx = some a) : a.id = "emergency-fund" := by
  unfold checkEmergencyFund at h
  split at h
  · cases h
  · injection h with h2
    subst h2
    rfl

/-- checkCreditCardUtilization only ever emits the cc-utilization id. -/
lemma checkCreditCardUtilization_id (ctx : RulesContext) (a : Alert)
    (h : checkCreditCardUtilization ctx = some a) : a.id = "cc-utilization" := by
  unfold checkCreditCardUtilization at h
  dsimp only at h
  split at h
  · cases h
  · split at h
    · cases h
    · injection h with h2
      subst h2
      rfl

/-- checkEmiToIncome only ever emits the emi-income-ratio id. -/
lemma checkEmiToIncome_id (ctx : RulesContext) (a : Alert)
    (h : checkEmiToIncome ctx = some a) : a.id = "emi-income-ratio" := by
  unfold checkEmiToIncome at h
  dsimp only at h
  split at h
  · cases h
  · split at h
    · cases h
    · injection h with h2
      subst h2
      rfl

/-- checkHighAprDebtWithInvestments only ever emits its fixed id. -/
lemma checkHighAprDebtWithInvestments_id (ctx : RulesContext) (a : Alert)
    (h : checkHighAprDebtWithInvestments ctx = some a) :
    a.id = "high-apr-with-investments" := by
  unfold checkHighAprDebtWithInvestments at h
  dsimp only at h
  split at h
  · split at h
    · cases h
    · injection h with h2
      subst h2
      rfl
  · cases h

/-- checkNegativeCashflow only ever emits the negative-cashflow id. -/
lemma checkNegativeCashflow_id (ctx : RulesContext) (a : Alert)
    (h : checkNegativeCashflow ctx = some a) : a.id = "negative-cashflow" := by
  unfold checkNegativeCashflow at h
  split at h
  · cases h
  · injection h with h2
    subst h2
    rfl

/-- checkNegativeCashflow only ever emits severity high. -/
lemma checkNegativeCashflow_severity (ctx : RulesContext) (a : Alert)
    (h : checkNegativeCashflow ctx = some a) : a.severity = .high := by
  unfold checkNegativeCashflow at h
  split at h
  · cases h
  · injection h with h2
    subst h2
    rfl

/-- checkNegativeCashflow fires whenever freeCashflow is negative. -/
lemma checkNegativeCashflow_fires (ctx : RulesContext)
    (h : ctx.freeCashflow < 0) :
    checkNegativeCashflow ctx = some { id := "negative-cashflow", severity := .high } := by
  unfold checkNegativeCashflow
  rw [if_neg (not_le.mpr h)]

/-- checkSavingsRate only ever emits the low-savings-rate id. -/
lemma checkSavingsRate_id (ctx : RulesContext) (a : Alert)
    (h : checkSavingsRate ctx = some a) : a.id = "low-savings-rate" := by
  unfold checkSavingsRate at h
  split at h
  · cases h
  · split at h
    · cases h
    · injection h with h2
      subst h2
      rfl

/-- checkSavingsRate is silent on negative savings rates (ceded to the
negative-cashflow rule). -/
lemma checkSavingsRate_none (ctx : RulesContext) (h : ctx.savingsRate < 0) :
    checkSavingsRate ctx = none := by
  unfold checkSavingsRate
  rw [if_neg (not_le.mpr (lt_trans h (by norm_num))), if_pos h]

/-- checkAllocationDrift only ever emits the allocation-drift id. -/
lemma checkAllocationDrift_id (ctx : RulesContext) (a : Alert)
    (h : checkAllocationDrift ctx = some a) : a.id = "allocation-drift" := by
  unfold checkAllocationDrift at h
  dsimp only at h
  split at h
  · cases h
  · injection h with h2
    subst h2
    rfl

/-- checkNoIncome only ever emits the no-income id. -/
lemma checkNoIncome_id (ctx : RulesContext) (a : Alert)
    (h : checkNoIncome ctx = some a) : a.id = "no-income" := by
  unfold checkNoIncome at h
  split at h
  · cases h
  · injection h with h2
    subst h2
    rfl

/-- Pointwise-tagged filterMap: if each rule can only emit its own tag,
the emitted id list is a sublist of the tag list. -/
lemma filterMap_ids_sublist (ctx : RulesContext) :
    ∀ (rs : List (RulesContext → Option Alert)) (ids : List String),
    List.Forall₂ (fun rule i => ∀ a, rule ctx = some a → a.id = i) rs ids →
    List.Sublist ((rs.filterMap (fun rule => rule ctx)).map Alert.id) ids := by
  intro rs ids h
  induction h with
  | nil => simp
  | cons hri hrest ih =>
    rename_i rule i rs' ids'
    rw [List.filterMap_cons]
    cases hra : rule ctx with
    | none => exact ih.cons i
    | some a =>
      rw [List.map_cons, hri a hra]
      exact ih.cons₂ i

/-- The ids of the raw catalogue output form a sublist of ruleIds. -/
lemma rawAlerts_ids_sublist (ctx : RulesContext) :
    List.Sublist ((rawAlerts ctx).map Alert.id) ruleIds := by
  apply filterMap_ids_sublist ctx RULES ruleIds
  unfold RULES ruleIds
  exact .cons (checkEmergencyFund_id ctx)
    (.cons (checkCreditCardUtilization_id ctx)
      (.cons (checkEmiToIncome_id ctx)
        (.cons (checkHighAprDebtWithInvestments_id ctx)
          (.cons (checkNegativeCashflow_id ctx)
            (.cons (checkSavingsRate_id ctx)
              (.cons (checkAllocationDrift_id ctx)
                (.cons (checkNoIncome_id ctx) .nil)))))))

/-- No id repeats in the raw catalogue output. -/
lemma rawAlerts_ids_nodup (ctx : RulesContext) :
    ((rawAlerts ctx).map Alert.id).Nodup :=
  (rawAlerts_ids_sublist ctx).nodup (by decide)

/-- evaluateRules permutes the raw catalogue output. -/
lemma evaluateRules_perm (ctx : RulesContext) :
    (evaluateRules ctx).Perm (rawAlerts ctx) :=
  List.mergeSort_perm (rawAlerts ctx) _

/-- Membership in the raw output means one of the eight rules emitted the
alert. -/
lemma mem_rawAlerts_cases (ctx : RulesContext) (a : Alert)
    (h : a ∈ rawAlerts ctx) :
    checkEmergencyFund ctx = some a ∨ checkCreditCardUtilization ctx = some a ∨
    checkEmiToIncome ctx = some a ∨ checkHighAprDebtWithInvestments ctx = some a ∨
    checkNegativeCashflow ctx = some a ∨ checkSavingsRate ctx = some a ∨
    checkAllocationDrift ctx = some a ∨ checkNoIncome ctx = some a := by
  unfold rawAlerts RULES at h
  rw [List.mem_filterMap] at h
  obtain ⟨r, hr, hra⟩ := h
  simp only [List.mem_cons, List.not_mem_nil, or_false] at hr
  rcases hr with rfl | rfl | rfl | rfl | rfl | rfl | rfl | rfl <;> tauto

/-- C10: evaluateRules emits at most 8 alerts, every id comes from the
fixed catalogue id set, and no id repeats. -/
theorem evaluateRules_at_most_eight_distinct_ids (ctx : RulesContext) :
    (evaluateRules ctx).length ≤ 8 ∧
    (∀ a ∈ evaluateRules ctx, a.id ∈ ruleIds) ∧
    ((evaluateRules ctx).map Alert.id).Nodup := by
  have hperm := evaluateRules_perm ctx
  have hsub := rawAlerts_ids_sublist ctx
  refine ⟨?_, ?_, ?_⟩
  · have h1 : (evaluateRules ctx).length = (rawAlerts ctx).length := hperm.length_eq
    have h2 : ((rawAlerts ctx).map Alert.id).length ≤ ruleIds.length := hsub.length_le
    rw [List.length_map] at h2
    have h3 : ruleIds.length = 8 := rfl
    omega
  · intro a ha
    have hmem : a ∈ rawAlerts ctx := hperm.mem_iff.mp ha
    exact hsub.subset (List.mem_map_of_mem Alert.id hmem)
  · exact ((hperm.map Alert.id).nodup_iff).mpr (rawAlerts_ids_nodup ctx)

/-- C2 (amended): for every context with negative free cashflow,
evaluateRules emits exactly one negative-cashflow alert and it has
severity high; the low-savings-rate alert is guaranteed absent only when
savingsRate is also negative (which buildRulesContext yields whenever
income is positive — but not when income is zero). -/
theorem negative_cashflow_alert (ctx : RulesContext)
    (h : ctx.freeCashflow < 0) :
    ((evaluateRules ctx).map Alert.id).count "negative-cashflow" = 1 ∧
    (∀ a ∈ evaluateRules ctx, a.id = "negative-cashflow" → a.severity = .high) ∧
    (ctx.savingsRate < 0 → "low-savings-rate" ∉ (evaluateRules ctx).map Alert.id) := by
  have hperm := evaluateRules_perm ctx
  have hmem_raw : ({ id := "negative-cashflow", severity := .high } : Alert) ∈ rawAlerts ctx := by
    unfold rawAlerts
    rw [List.mem_filterMap]
    exact ⟨checkNegativeCashflow, by simp [RULES], checkNegativeCashflow_fires ctx h⟩
  refine ⟨?_, ?_, ?_⟩
  · apply List.count_eq_one_of_mem
    · exact ((hperm.map Alert.id).nodup_iff).mpr (rawAlerts_ids_nodup ctx)
    · exact List.mem_map_of_mem Alert.id (hperm.mem_iff.mpr hmem_raw)
  · intro a ha hid
    have hraw : a ∈ rawAlerts ctx := hperm.mem_iff.mp ha
    rcases mem_rawAlerts_cases ctx a hraw with hc | hc | hc | hc | hc | hc | hc | hc
    · rw [checkEmergencyFund_id ctx a hc] at hid
      exact absurd hid (by decide)
    · rw [checkCreditCardUtilization_id ctx a hc] at hid
      exact absurd hid (by decide)
    · rw [checkEmiToIncome_id ctx a hc] at hid
      exact absurd hid (by decide)
    · rw [checkHighAprDebtWithInvestments_id ctx a hc] at hid
      exact absurd hid (by decide)
    · exact checkNegativeCashflow_severity ctx a hc
    · rw [checkSavingsRate_id ctx a hc] at hid
      exact absurd hid (by decide)
    · rw [checkAllocationDrift_id ctx a hc] at hid
      exact absurd hid (by decide)
    · rw [checkNoIncome_id ctx a hc] at hid
      exact absurd hid (by decide)
  · intro hrate hmem
    rw [List.mem_map] at hmem
    obtain ⟨a, ha, hid⟩ := hmem
    have hraw : a ∈ rawAlerts ctx := hperm.mem_iff.mp ha
    rcases mem_rawAlerts_cases ctx a hraw with hc | hc | hc | hc | hc | hc | hc | hc
    · exact absurd ((checkEmergencyFund_id ctx a hc).symm.trans hid) (by decide)
    · exact absurd ((checkCreditCardUtilization_id ctx a hc).symm.trans hid) (by decide)
    · exact absurd ((checkEmiToIncome_id ctx a hc).symm.trans hid) (by decide)
    · exact absurd ((checkHighAprDebtWithInvestments_id ctx a hc).symm.trans hid) (by decide)
    · exact absurd ((checkNegativeCashflow_id ctx a hc).symm.trans hid) (by decide)
    · rw [checkSavingsRate_none ctx hrate] at hc
      cases hc
    · exact absurd ((checkAllocationDrift_id ctx a hc).symm.trans hid) (by decide)
    · exact absurd ((checkNoIncome_id ctx a hc).symm.trans hid) (by decide)

/-- C2 (counterexample): a context built by buildRulesContext from zero
income and positive expenses has freeCashflow < 0, yet evaluateRules
still returns a low-savings-rate alert (the derived savings rate is 0,
which the savings-rate rule does not treat as ceded to the
negative-cashflow rule), refuting the claimed suppression for every
context with negative free cashflow. -/
theorem negative_cashflow_suppression_counterexample :
    (buildRulesContext zeroIncomeData).freeCashflow < 0 ∧
    "low-savings-rate" ∈
      (evaluateRules (buildRulesContext zeroIncomeData)).map Alert.id := by
  constructor
  · with_unfolding_all decide
  · with_unfolding_all decide

/-- C2 (witness): the amended theorem applies to the concrete context
with free cashflow −1 and savings rate −100. -/
theorem negative_cashflow_alert_witness :
    negativeCtx.freeCashflow < 0 ∧
    (((evaluateRules negativeCtx).map Alert.id).count "negative-cashflow" = 1 ∧
     (∀ a ∈ evaluateRules negativeCtx, a.id = "negative-cashflow" →
        a.severity = .high) ∧
     (negativeCtx.savingsRate < 0 →
        "low-savings-rate" ∉ (evaluateRules negativeCtx).map Alert.id)) :=
  ⟨by norm_num [negativeCtx], negative_cashflow_alert negativeCtx (by norm_num [negativeCtx])⟩

/-! ### The cascading month pass (C1) -/

/-- The priority-lookup predicate is the negation of the skip guard. -/
lemma unpaidPred_eq (x : SimDebt) : unpaidPred x = !skipDebt x := by
  cases hp : x.paid <;>
    simp [unpaidPred, skipDebt, hp, ← decide_not, not_le]

/-- A debt whose post-payment balance stays above 0.01 keeps its paid flag
and its id. -/
lemma payDebt_survives (ex : ℚ) (d : SimDebt) (hd : d.paid = false)
    (hs : 1 / 100 < (payDebt ex d).currentBalance) :
    (payDebt ex d).paid = false ∧ (payDebt ex d).id = d.id := by
  have h := hs
  unfold payDebt at h ⊢
  dsimp only at h ⊢
  split at h
  · exact absurd h (by norm_num)
  · rename_i hcond
    rw [if_neg hcond]
    exact ⟨hd, rfl⟩

/-- Unfolding of the month pass at a debt that is not skipped. -/
lemma monthPassGo_fst_cons_not_skip (extra : ℚ) (acc : List SimDebt)
    (d : SimDebt) (rest : List SimDebt) (h : skipDebt d = false) :
    (monthPassGo extra acc (d :: rest)).1 =
      (monthPassGo extra
        (acc ++ [payDebt (if isPriority (acc ++ d :: rest) d then extra else 0) d])
        rest).1 := by
  rw [monthPassGo, if_neg (by simp [h] : ¬ skipDebt d = true)]

/-- Skipped debts at the front of the pass are copied unchanged into the
processed prefix. -/
lemma monthPassGo_skipped_front (extra : ℚ) :
    ∀ (A acc rest : List SimDebt), (∀ a ∈ A, skipDebt a = true) →
      monthPassGo extra acc (A ++ rest) = monthPassGo extra (acc ++ A) rest := by
  intro A
  induction A with
  | nil => intro acc rest _; simp
  | cons a A ih =>
    intro acc rest hA
    rw [List.cons_append, monthPassGo, if_pos (hA a (by simp))]
    rw [ih (acc ++ [a]) rest (fun x hx => hA x (by simp [hx]))]
    simp [List.append_assoc]

/-- Once the processed prefix already holds the (surviving) priority
debt, every remaining unpaid debt receives the plain minimum-payment
update payDebt 0 and skipped debts stay unchanged. -/
lemma monthPassGo_after_priority (extra : ℚ) (q : SimDebt) :
    ∀ (rest acc : List SimDebt),
      firstUnpaid acc = some q →
      (∀ r ∈ rest, r.id ≠ q.id) →
      (monthPassGo extra acc rest).1 =
        acc ++ rest.map (fun r => if skipDebt r then r else payDebt 0 r) := by
  intro rest
  induction rest with
  | nil => intro acc h1 h2; simp [monthPassGo]
  | cons r rest ih =>
    intro acc h1 h2
    have hfind : ∀ t : List SimDebt, firstUnpaid (acc ++ t) = some q := by
      intro t
      unfold firstUnpaid at h1 ⊢
      rw [List.find?_append, h1]
      rfl
    cases hskip : skipDebt r with
    | true =>
      rw [monthPassGo, if_pos hskip]
      rw [ih (acc ++ [r]) (hfind [r]) (fun x hx => h2 x (by simp [hx]))]
      simp [List.append_assoc, hskip]
    | false =>
      have hpri : isPriority (acc ++ r :: rest) r = false := by
        unfold isPriority
        rw [hfind (r :: rest)]
        exact beq_eq_false_iff_ne.mpr (fun e => h2 r (by simp) e.symm)
      rw [monthPassGo_fst_cons_not_skip extra acc r rest hskip, hpri,
        if_neg Bool.false_ne_true]
      rw [ih (acc ++ [payDebt 0 r]) (hfind [payDebt 0 r])
        (fun x hx => h2 x (by simp [hx]))]
      simp [List.append_assoc, hskip]

/-- C1 (amended): in any simulated month whose start-of-month priority
debt (the first unpaid debt d after the all-skipped prefix A) is not
fully paid off by its own payment, the month pass gives the extra amount
to exactly that one debt: d receives payDebt extra and every other debt
receives payDebt 0 — payment exactly min(minPayment, balance + interest)
— when unpaid, or is left unchanged when already paid.  (When the
priority debt is paid off mid-pass the source re-evaluates the priority
lookup against the mutated array and the extra cascades to later debts of
the same month; see the counterexample theorem.) -/
theorem cascading_extra_single_recipient (extra : ℚ)
    (A : List SimDebt) (d : SimDebt) (R : List SimDebt)
    (hA : ∀ a ∈ A, skipDebt a = true)
    (hd : skipDebt d = false)
    (hsurv : 1 / 100 < (payDebt extra d).currentBalance)
    (hids : ∀ r ∈ R, r.id ≠ d.id) :
    (monthPass extra (A ++ d :: R)).1 =
      A ++ payDebt extra d ::
        R.map (fun r => if skipDebt r then r else payDebt 0 r) := by
  have hdpaid : d.paid = false := by
    have h := hd
    unfold skipDebt at h
    exact (Bool.or_eq_false_iff.mp h).1
  obtain ⟨hq_paid, hq_id⟩ := payDebt_survives extra d hdpaid hsurv
  have hq : unpaidPred (payDebt extra d) = true := by
    unfold unpaidPred
    rw [hq_paid]
    simp only [Bool.not_false, Bool.true_and]
    exact decide_eq_true hsurv
  have hApred : A.find? unpaidPred = none := by
    refine List.find?_eq_none.mpr (fun x hx => ?_)
    rw [unpaidPred_eq x, hA x hx]
    simp
  have hdpred : unpaidPred d = true := by
    rw [unpaidPred_eq d, hd]
    rfl
  have hfind2 : firstUnpaid (A ++ [payDebt extra d]) = some (payDebt extra d) := by
    unfold firstUnpaid
    rw [List.find?_append, hApred, List.find?_cons_of_pos _ hq]
    rfl
  have hids2 : ∀ r ∈ R, r.id ≠ (payDebt extra d).id := by
    intro r hr
    rw [hq_id]
    exact hids r hr
  have hpri : isPriority (A ++ d :: R) d = true := by
    unfold isPriority firstUnpaid
    rw [List.find?_append, hApred, List.find?_cons_of_pos _ hdpred]
    simp
  unfold monthPass
  rw [monthPassGo_skipped_front extra A [] (d :: R) hA, List.nil_append]
  rw [monthPassGo_fst_cons_not_skip extra A d R hd, hpri, if_pos rfl]
  rw [monthPassGo_after_priority extra (payDebt extra d) R
    (A ++ [payDebt extra d]) hfind2 hids2]
  simp [List.append_assoc]

/-- C1 (counterexample): with extra 100, a month pass over the two debts
above pays debt "a" off (balance 0) and then also adds the full extra to
debt "b", leaving it at 895 — whereas the claimed
min(minPayment, balance + interest) payment for a non-priority debt would
leave 995.  One simulated month therefore adds the extra to two debts. -/
theorem cascading_extra_counterexample :
    (monthPass 100 [cexDebtA, cexDebtB]).1.map (fun d => d.currentBalance) =
      [0, 895] ∧
    (payDebt 0 cexDebtB).currentBalance = 995 ∧ ((895 : ℚ) = 995 → False) := by
  refine ⟨?_, ?_, ?_⟩ <;> with_unfolding_all decide

/-- C1 (witness): the amended theorem applies to a concrete month pass in
which the priority debt survives: the priority debt alone absorbs the
extra 10 and the other debt gets the plain minimum-payment update. -/
theorem cascading_extra_single_recipient_witness :
    ((∀ a ∈ ([] : List SimDebt), skipDebt a = true) ∧
     skipDebt wDebtA = false ∧
     1 / 100 < (payDebt 10 wDebtA).currentBalance ∧
     (∀ r ∈ [wDebtB], r.id ≠ wDebtA.id)) ∧
    (monthPass 10 ([] ++ wDebtA :: [wDebtB])).1 =
      [] ++ payDebt 10 wDebtA ::
        [wDebtB].map (fun r => if skipDebt r then r else payDebt 0 r) :=
  ⟨⟨by simp, by with_unfolding_all decide, by with_unfolding_all decide,
      by with_unfolding_all decide⟩,
    cascading_extra_single_recipient 10 [] wDebtA [wDebtB]
      (by simp)
      (by with_unfolding_all decide)
      (by with_unfolding_all decide)
      (by with_unfolding_all decide)⟩

/-! ### Isolated minimum-payment amortization (C3) -/

/-- One minimum-payment step keeps the balance in [0, current balance]
whenever the monthly interest at the initial balance is below the minimum
payment. -/
lemma simDebtStep_le (d : DebtForPayoff) (b : ℚ) (hapr : 0 ≤ d.apr)
    (hb0 : 0 ≤ b) (hb : b ≤ d.balance)
    (hmin : d.balance * d.apr < d.minPayment * 12) :
    0 ≤ simDebtStep d d.minPayment b ∧ simDebtStep d d.minPayment b ≤ b := by
  have hi_lt : calculateMonthlyInterest b d.apr < d.minPayment := by
    unfold calculateMonthlyInterest
    have h1 : b * d.apr ≤ d.balance * d.apr := mul_le_mul_of_nonneg_right hb hapr
    have h3 : b * (d.apr / 12) = b * d.apr / 12 := by ring
    rw [h3]
    linarith
  unfold simDebtStep
  dsimp only
  set i := calculateMonthlyInterest b d.apr with hi
  refine ⟨le_max_left 0 _, ?_⟩
  have hprin : 0 ≤ min d.minPayment (b + i) - i := by
    have h4 : i ≤ min d.minPayment (b + i) := le_min (le_of_lt hi_lt) (by linarith)
    linarith
  exact max_le hb0 (by linarith)

/-- One minimum-payment step strictly decreases a balance that is still
above the 0.01 payoff threshold. -/
lemma simDebtStep_lt (d : DebtForPayoff) (b : ℚ) (hapr : 0 ≤ d.apr)
    (hb : b ≤ d.balance)
    (hmin : d.balance * d.apr < d.minPayment * 12)
    (hpos : 1 / 100 < b) :
    simDebtStep d d.minPayment b < b := by
  have hi_lt : calculateMonthlyInterest b d.apr < d.minPayment := by
    unfold calculateMonthlyInterest
    have h1 : b * d.apr ≤ d.balance * d.apr :=
      mul_le_mul_of_nonneg_right hb hapr
    have h3 : b * (d.apr / 12) = b * d.apr / 12 := by ring
    rw [h3]
    linarith
  unfold simDebtStep
  dsimp only
  set i := calculateMonthlyInterest b d.apr with hi
  have hprin : 0 < min d.minPayment (b + i) - i := by
    have h4 : i < min d.minPayment (b + i) := lt_min hi_lt (by linarith)
    linarith
  exact max_lt (by linarith) (by linarith)

/-- The isolated balance trace stays within [0, initial balance]. -/
lemma isolatedBalance_bounds (d : DebtForPayoff) (hapr : 0 ≤ d.apr)
    (hb0 : 0 ≤ d.balance) (hmin : d.balance * d.apr < d.minPayment * 12) :
    ∀ k, 0 ≤ isolatedBalance d k ∧ isolatedBalance d k ≤ d.balance := by
  intro k
  induction k with
  | zero =>
    simp only [isolatedBalance, Function.iterate_zero, id]
    exact ⟨hb0, le_refl _⟩
  | succ n ih =>
    have hstep : isolatedBalance d (n + 1) =
        simDebtStep d d.minPayment (isolatedBalance d n) := by
      unfold isolatedBalance
      rw [Function.iterate_succ_apply']
    obtain ⟨h1, h2⟩ := ih
    obtain ⟨h3, h4⟩ := simDebtStep_le d (isolatedBalance d n) hapr h1 h2 hmin
    rw [hstep]
    exact ⟨h3, le_trans h4 h2⟩

/-- C3 (amended): for a debt whose yearly minimum payments dominate its
initial yearly interest (minPayment × 12 > balance × apr, with the
documented input ranges apr ≥ 0 and balance ≥ 0), the simulation's
totalMonths is finite and at most 600 — the 600-month cap itself can be
reached, see the counterexample — and the isolated minimum-payment
balance trace strictly decreases every month until it falls to ≤ 0.01
(which need not happen within the cap). -/
theorem minimum_payment_payoff_bounded (debts : List DebtForPayoff)
    (strat : Strategy) (extra : ℚ) (d : DebtForPayoff) (k : Nat)
    (_hmem : d ∈ debts) (hapr : 0 ≤ d.apr) (hbal : 0 ≤ d.balance)
    (hmin : d.balance * d.apr < d.minPayment * 12) :
    (simulatePayoff debts strat extra).totalMonths ≤ 600 ∧
    (isolatedBalance d k ≤ 1 / 100 ∨
      isolatedBalance d (k + 1) < isolatedBalance d k) := by
  refine ⟨simulatePayoff_totalMonths_le debts strat extra, ?_⟩
  by_cases hsm : isolatedBalance d k ≤ 1 / 100
  · exact Or.inl hsm
  · right
    have hstep : isolatedBalance d (k + 1) =
        simDebtStep d d.minPayment (isolatedBalance d k) := by
      unfold isolatedBalance
      rw [Function.iterate_succ_apply']
    obtain ⟨h1, h2⟩ := isolatedBalance_bounds d hapr hbal hmin k
    rw [hstep]
    exact simDebtStep_lt d (isolatedBalance d k) hapr h2 hmin (not_le.mp hsm)

/-- C3 (counterexample): slowDebt satisfies minPayment × 12 > balance ×
apr (12 > 0), yet the simulation runs into the 600-month cap and reports
totalMonths = 600, refuting the claimed strict bound totalMonths < 600. -/
theorem minimum_payment_payoff_counterexample :
    (∀ d ∈ [slowDebt],
      0 ≤ d.apr ∧ 0 ≤ d.balance ∧ d.balance * d.apr < d.minPayment * 12) ∧
    (simulatePayoff [slowDebt] .avalanche 0).totalMonths = 600 := by
  constructor
  · with_unfolding_all decide
  · with_unfolding_all decide

/-- C3 (witness): the amended theorem applies to the concrete
fast-amortizing debt. -/
theorem minimum_payment_payoff_witness :
    (quickDebt ∈ [quickDebt] ∧ 0 ≤ quickDebt.apr ∧ 0 ≤ quickDebt.balance ∧
      quickDebt.balance * quickDebt.apr < quickDebt.minPayment * 12) ∧
    ((simulatePayoff [quickDebt] .avalanche 0).totalMonths ≤ 600 ∧
      (isolatedBalance quickDebt 0 ≤ 1 / 100 ∨
        isolatedBalance quickDebt (0 + 1) < isolatedBalance quickDebt 0)) :=
  ⟨⟨by simp, by with_unfolding_all decide, by with_unfolding_all decide,
      by with_unfolding_all decide⟩,
    minimum_payment_payoff_bounded [quickDebt] .avalanche 0 quickDebt 0
      (by simp) (by with_unfolding_all decide) (by with_unfolding_all decide)
      (by with_unfolding_all decide)⟩
